import Mathlib

/-!
Shallow embedding of the analytical core of the South-Africa indicators
dashboard (`streamlit_app.py`): loading (a `SELECT * ... ORDER BY year`
query), year-range filtering of the dataframe, column means, pandas
`pct_change().mean()`, the Pearson correlation `Series.corr`, and the
degree-1 least-squares fit `np.polyfit(x, y, 1)`.

Numbers are modelled exactly: python ints as `ℤ`, floats as `ℚ` (with `ℝ`
where an exact square root is required).  Rational division is total with
`x / 0 = 0`; no claim under study evaluates a division at a zero
denominator except where explicitly guarded.
-/

/-- One row of the `environmental_social_data` table, as selected by
`load_data` in `streamlit_app.py`: columns `year`, `total_co2_emissions`,
`pct_unable_to_afford_diet`. -/
structure IndicatorRecord where
  year : ℤ
  total_co2_emissions : ℚ
  pct_unable_to_afford_diet : ℚ
deriving DecidableEq, Repr

/-- Sort rows ascending by an integer key; models the SQL `ORDER BY year`
clause of the load query (insertion sort, passed its decidability witness
explicitly). -/
def sortByKey {α : Type} (key : α → ℤ) (rows : List α) : List α :=
  @List.insertionSort α (fun a b => key a ≤ key b)
    (fun a b => Int.decLe (key a) (key b)) rows

/-- Embedding of `load_data` (streamlit_app.py lines 28-33): connect to the
sqlite database and run `SELECT * FROM environmental_social_data ORDER BY
year`.  The source is `none` when the table cannot be read (sqlite raises
`no such table`, surfaced by pandas as a `DatabaseError`); otherwise it is
the bag of rows of the table, of an arbitrary row type `α` because
`SELECT *` performs no column validation.  An empty table yields an empty
dataframe without error. -/
def load_data {α : Type} (source : Option (List α)) (key : α → ℤ) :
    Except String (List α) :=
  match source with
  | none => Except.error "no such table: environmental_social_data"
  | some rows => Except.ok (sortByKey key rows)

/-- Embedding of line 51 of `streamlit_app.py`:
`filtered_df = df[(df['year'] >= year_range[0]) & (df['year'] <= year_range[1])]`,
a boolean-mask row filter. -/
def filtered_df (df : List IndicatorRecord) (lo hi : ℤ) : List IndicatorRecord :=
  df.filter (fun r => decide (lo ≤ r.year ∧ r.year ≤ hi))

/-- The `year` column lower bound used by the slider:
`int(df['year'].min())` (defined only on a nonempty frame). -/
def minYearCol (df : List IndicatorRecord) : WithTop ℤ :=
  (df.map (fun r => r.year)).minimum

/-- The `year` column upper bound used by the slider:
`int(df['year'].max())` (defined only on a nonempty frame). -/
def maxYearCol (df : List IndicatorRecord) : WithBot ℤ :=
  (df.map (fun r => r.year)).maximum

/-- The `total_co2_emissions` column of a (filtered) dataframe. -/
def co2Series (df : List IndicatorRecord) : List ℚ :=
  df.map (fun r => r.total_co2_emissions)

/-- The `pct_unable_to_afford_diet` column of a (filtered) dataframe. -/
def dietSeries (df : List IndicatorRecord) : List ℚ :=
  df.map (fun r => r.pct_unable_to_afford_diet)

/-- Pandas `Series.mean()`: sum divided by length (on the empty series the
quotient `0 / 0` is the junk value `0`; every use below is guarded or
applied to a nonempty series, where pandas returns the same rational). -/
def cmean (l : List ℚ) : ℚ := l.sum / l.length

/-- The list of period-over-period relative changes
`(x[i] - x[i-1]) / x[i-1]`, i = 1..n-1: the non-null entries of pandas
`Series.pct_change()`. -/
def pctChanges : List ℚ → List ℚ
  | [] => []
  | [_] => []
  | a :: b :: rest => (b - a) / a :: pctChanges (b :: rest)

/-- Embedding of `series.pct_change().mean()` (streamlit_app.py lines 67
and 74): pandas drops the leading null and averages the n-1 changes; with
fewer than 2 records there are no changes and the mean is NaN, modelled as
`none`. -/
def pctChangeMean (xs : List ℚ) : Option ℚ :=
  if xs.length < 2 then none else some (cmean (pctChanges xs))

/-- A series recentred at its mean, as used by the covariance sums of
`Series.corr` and of the least-squares fit. -/
def centered (l : List ℚ) : List ℚ := l.map (fun x => x - cmean l)

/-- Sum of pairwise products of two (index-aligned) series; applied to
centered series it is the unnormalised covariance `Σ (x-x̄)(y-ȳ)`. -/
def dotc : List ℚ → List ℚ → ℚ
  | a :: xs, b :: ys => a * b + dotc xs ys
  | _, _ => 0

/-- Embedding of line 78 of `streamlit_app.py`:
`filtered_df['total_co2_emissions'].corr(filtered_df['pct_unable_to_afford_diet'])`.
Pandas computes the sample Pearson coefficient
`Σ(x-x̄)(y-ȳ) / sqrt(Σ(x-x̄)² · Σ(y-ȳ)²)` over the aligned pairs and
returns NaN (here `none`) when fewer than 2 pairs exist or either series
is constant (zero denominator).  The two series come from the same
dataframe, so they are index-aligned and of equal length.  The value needs
an exact real square root, hence `ℝ` and noncomputability. -/
noncomputable def pearson (xs ys : List ℚ) : Option ℝ :=
  if min xs.length ys.length < 2 ∨ dotc (centered xs) (centered xs) = 0 ∨
      dotc (centered ys) (centered ys) = 0 then none
  else some ((dotc (centered xs) (centered ys) : ℝ) /
    Real.sqrt ((dotc (centered xs) (centered xs) : ℝ) *
      (dotc (centered ys) (centered ys) : ℝ)))

/-- The delta label of the correlation metric (streamlit_app.py line 82):
`"Negative" if correlation < 0 else "Positive"`. -/
noncomputable def corrLabel (r : ℝ) : String :=
  if r < 0 then "Negative" else "Positive"

/-- Embedding of `np.polyfit(x, y, 1)` (streamlit_app.py line 132) in exact
arithmetic.  numpy raises `TypeError` on mismatched lengths or an empty
`x`.  Otherwise it solves the least-squares system on the Vandermonde
matrix `[x, 1]` after scaling each column to unit norm.
With non-constant `x` the system has full rank and the unique solution is
the ordinary least-squares line `slope = Σ(x-x̄)(y-ȳ)/Σ(x-x̄)²`,
`intercept = ȳ - slope·x̄` (column scaling cancels).  With constant
`x = c ≠ 0` (which covers the single-point case) the system is
rank-deficient: numpy emits a `RankWarning` and `lstsq` returns the
minimum-norm solution of the scaled system, which unscales to
`slope = ȳ/(2c)`, `intercept = ȳ/2` (the scale factors `c·√n` and `√n`
cancel rationally).  With `x = 0` the column scale is zero and the scaled
matrix contains NaN, on which LAPACK fails. -/
def polyfit1 (xs ys : List ℚ) : Except String (ℚ × ℚ) :=
  if xs.length ≠ ys.length then
    Except.error "expected x and y to have same length"
  else if xs.length = 0 then
    Except.error "expected non-empty vector for x"
  else if dotc (centered xs) (centered xs) = 0 then
    if xs.headD 0 = 0 then
      Except.error "SVD did not converge in Linear Least Squares"
    else
      Except.ok (cmean ys / (2 * xs.headD 0), cmean ys / 2)
  else
    Except.ok (dotc (centered xs) (centered ys) / dotc (centered xs) (centered xs),
      cmean ys - dotc (centered xs) (centered ys) / dotc (centered xs) (centered xs) * cmean xs)

/-- A dataframe sorted ascending by the `year` column, the shape produced
by `load_data` and assumed by the dashboard. -/
def YearSorted (df : List IndicatorRecord) : Prop :=
  df.Pairwise (fun a b => a.year ≤ b.year)

/-- The seven-record example dataset of the end-to-end scenario
(the yearly indicators 2017-2023). -/
def exampleDataset : List IndicatorRecord :=
  [⟨2017, 440, 608/10⟩, ⟨2018, 4346/10, 602/10⟩, ⟨2019, 4641/10, 602/10⟩,
   ⟨2020, 4341/10, 618/10⟩, ⟨2021, 4259/10, 611/10⟩, ⟨2022, 4053/10, 610/10⟩,
   ⟨2023, 4019/10, 617/10⟩]

/-- The synthetic regressor series x = 1..5 of the linear-recovery test. -/
def linX : List ℚ := [1, 2, 3, 4, 5]

/-- The synthetic response series y = 2x + 3 over x = 1..5. -/
def linY : List ℚ := [5, 7, 9, 11, 13]

/-- A row shape missing the `pct_unable_to_afford_diet` column, used to
observe that the `SELECT *` load performs no column validation. -/
structure PartialRow where
  year : ℤ
  total_co2_emissions : ℚ
deriving DecidableEq, Repr

/-- The recursive change list agrees with the indexed formula
`(x[i+1] - x[i]) / x[i]` over `i < n - 1`. -/
theorem pctChanges_eq_map (xs : List ℚ) :
    pctChanges xs = (List.range (xs.length - 1)).map
      (fun i => (xs.getD (i + 1) 0 - xs.getD i 0) / xs.getD i 0) := by
  induction xs with
  | nil => rfl
  | cons a t ih =>
    cases t with
    | nil => rfl
    | cons b u =>
      simp only [pctChanges, List.length_cons, Nat.add_sub_cancel, List.range_succ_eq_map,
        List.map_cons, List.map_map]
      congr 1

/-- The pairwise-product sum is symmetric in its two series. -/
theorem dotc_comm (xs ys : List ℚ) : dotc xs ys = dotc ys xs := by
  induction xs generalizing ys with
  | nil => cases ys <;> rfl
  | cons a t ih =>
    cases ys with
    | nil => rfl
    | cons b u => simp [dotc, ih, mul_comm]

/-- A sum of squares is nonnegative. -/
theorem dotc_self_nonneg (xs : List ℚ) : 0 ≤ dotc xs xs := by
  induction xs with
  | nil => exact le_refl 0
  | cons a t ih => simp only [dotc]; nlinarith [sq_nonneg a]

/-- Cauchy-Schwarz inequality for the pairwise-product sum. -/
theorem dotc_sq_le (xs ys : List ℚ) :
    dotc xs ys ^ 2 ≤ dotc xs xs * dotc ys ys := by
  induction xs generalizing ys with
  | nil => cases ys <;> simp [dotc]
  | cons a t ih =>
    cases ys with
    | nil => simp [dotc]
    | cons b u =>
      have h := ih u
      have hp := dotc_self_nonneg t
      have hq := dotc_self_nonneg u
      simp only [dotc]
      have h2 : 0 ≤ a ^ 2 * dotc u u + dotc t t * b ^ 2 :=
        add_nonneg (mul_nonneg (sq_nonneg a) hq) (mul_nonneg hp (sq_nonneg b))
      have h1 : (2 * a * b * dotc t u) ^ 2 ≤ (a ^ 2 * dotc u u + dotc t t * b ^ 2) ^ 2 := by
        nlinarith [mul_le_mul_of_nonneg_left h (mul_nonneg (sq_nonneg a) (sq_nonneg b)),
          sq_nonneg (a ^ 2 * dotc u u - dotc t t * b ^ 2)]
      have h3 : 2 * a * b * dotc t u ≤ a ^ 2 * dotc u u + dotc t t * b ^ 2 := by
        nlinarith [h1, h2]
      nlinarith [h3, h]

/-- Insertion sort by an integer key yields a key-sorted list. -/
theorem sortByKey_sorted {α : Type} (key : α → ℤ) (rows : List α) :
    (sortByKey key rows).Pairwise (fun a b => key a ≤ key b) :=
  @List.sorted_insertionSort α (fun a b => key a ≤ key b)
    (fun a b => Int.decLe (key a) (key b))
    ⟨fun a b => Int.le_total (key a) (key b)⟩
    ⟨fun a b c hab hbc => le_trans hab hbc⟩ rows

/-- On the synthetic linear data the sample Pearson coefficient is exactly 1
(the covariance sum is 20 and the two variance sums are 10 and 40, so the
denominator is the exact square root of 400). -/
theorem pearson_linX_linY : pearson linX linY = some 1 := by
  rw [pearson]
  norm_num [dotc, centered, cmean, linX, linY]
  rw [show ((400 : ℝ)) = 20 ^ 2 by norm_num, Real.sqrt_sq (by norm_num)]
  norm_num

/-- C1: for every year-sorted dataset and every filter range, the boolean
mask of line 51 returns exactly the records whose year lies in the closed
range, still in ascending year order, and the result is an order-preserving
subsequence of the dataset with no insertions. -/
theorem filtered_df_range_sorted_sublist (df : List IndicatorRecord) (lo hi : ℤ)
    (hs : YearSorted df) :
    (∀ r, r ∈ filtered_df df lo hi ↔ r ∈ df ∧ lo ≤ r.year ∧ r.year ≤ hi) ∧
    YearSorted (filtered_df df lo hi) ∧ (filtered_df df lo hi).Sublist df := by
  refine ⟨fun r => ?_, ?_, List.filter_sublist df⟩
  · simp [filtered_df, List.mem_filter, and_assoc]
  · exact List.Pairwise.sublist (List.filter_sublist df) hs

/-- Witness for C1 at the example dataset and the range 2019-2021. -/
theorem filtered_df_range_sorted_sublist_witness :
    YearSorted exampleDataset ∧
    ((∀ r, r ∈ filtered_df exampleDataset 2019 2021 ↔
        r ∈ exampleDataset ∧ 2019 ≤ r.year ∧ r.year ≤ 2021) ∧
      YearSorted (filtered_df exampleDataset 2019 2021) ∧
      (filtered_df exampleDataset 2019 2021).Sublist exampleDataset) := by
  have hs : YearSorted exampleDataset := by unfold YearSorted; decide
  exact ⟨hs, filtered_df_range_sorted_sublist exampleDataset 2019 2021 hs⟩

/-- C2 counterexample: the claim that analysis of a view with fewer than 2
records yields an undefined trend line without faulting is false on the
code.  On the empty view `np.polyfit` raises a `TypeError` (it faults), and
on a single-record view it returns a defined rank-deficient fit rather
than an undefined value. -/
theorem analyze_degenerate_counterexample :
    (polyfit1 ([] : List ℚ) ([] : List ℚ)).isOk = false ∧
    polyfit1 ([] : List ℚ) ([] : List ℚ) =
      Except.error "expected non-empty vector for x" ∧
    polyfit1 [(4341/10 : ℚ)] [(618/10 : ℚ)] = Except.ok (103/1447, 309/10) := by
  refine ⟨rfl, rfl, ?_⟩
  norm_num [polyfit1, centered, cmean, dotc]

/-- C2 amended: on a view with fewer than 2 records the percentage-change
means and the correlation are NaN (undefined) without fault, but the
trend-line computation raises a `TypeError` on the empty view and returns
the defined rank-deficient minimum-norm line `(y0/(2 x0), y0/2)` on a
single-record view. -/
theorem analyze_degenerate_amended (xs ys : List ℚ) (hlen : xs.length = ys.length)
    (h2 : xs.length < 2) :
    pctChangeMean xs = none ∧ pctChangeMean ys = none ∧ pearson xs ys = none ∧
    (xs = [] → polyfit1 xs ys = Except.error "expected non-empty vector for x") ∧
    (∀ a b, a ≠ 0 → xs = [a] → ys = [b] →
      polyfit1 xs ys = Except.ok (b / (2 * a), b / 2)) := by
  refine ⟨if_pos h2, if_pos (hlen ▸ h2),
    if_pos (Or.inl (lt_of_le_of_lt (min_le_left _ _) h2)), fun hx => ?_, ?_⟩
  · subst hx
    have hy : ys = [] := List.length_eq_zero.mp hlen.symm
    subst hy
    rfl
  · intro a b ha hx hy
    subst hx
    subst hy
    simp [polyfit1, centered, cmean, dotc, ha]

/-- Witness for the amended C2 at the reachable single-record view for the
year 2020. -/
theorem analyze_degenerate_amended_witness :
    ([(4341/10 : ℚ)].length = [(618/10 : ℚ)].length) ∧ ([(4341/10 : ℚ)].length < 2) ∧
    (pctChangeMean [(4341/10 : ℚ)] = none ∧ pctChangeMean [(618/10 : ℚ)] = none ∧
      pearson [(4341/10 : ℚ)] [(618/10 : ℚ)] = none ∧
      ([(4341/10 : ℚ)] = [] → polyfit1 [(4341/10 : ℚ)] [(618/10 : ℚ)] =
        Except.error "expected non-empty vector for x") ∧
      (∀ a b, a ≠ 0 → [(4341/10 : ℚ)] = [a] → [(618/10 : ℚ)] = [b] →
        polyfit1 [(4341/10 : ℚ)] [(618/10 : ℚ)] = Except.ok (b / (2 * a), b / 2))) :=
  ⟨rfl, by decide, analyze_degenerate_amended _ _ rfl (by decide)⟩

/-- C3: on the synthetic linear input x = 1..5, y = 2x + 3, the degree-1
least-squares fit yields slope exactly 2 and intercept exactly 3, the
Pearson correlation is exactly 1, and the fitted slope and intercept agree
with the covariance-over-variance and mean-based formulas. -/
theorem trendline_linear_recovery :
    polyfit1 linX linY = Except.ok (2, 3) ∧ pearson linX linY = some 1 ∧
    dotc (centered linX) (centered linY) / dotc (centered linX) (centered linX) = 2 ∧
    cmean linY - 2 * cmean linX = 3 := by
  refine ⟨?_, pearson_linX_linY, ?_, ?_⟩
  · norm_num [polyfit1, dotc, centered, cmean, linX, linY]
  · norm_num [dotc, centered, cmean, linX, linY]
  · norm_num [cmean, linX, linY]

/-- C4: filtering the seven-record example dataset to 2019-2021 yields
exactly the three records of those years; the record count is 3, the mean
CO2 is within 0.01 of 441.37 and the mean diet-unaffordability is within
0.01 of 61.03. -/
theorem end_to_end_example_scenario :
    filtered_df exampleDataset 2019 2021 =
      [⟨2019, 4641/10, 602/10⟩, ⟨2020, 4341/10, 618/10⟩, ⟨2021, 4259/10, 611/10⟩] ∧
    (filtered_df exampleDataset 2019 2021).length = 3 ∧
    |cmean (co2Series (filtered_df exampleDataset 2019 2021)) - 44137/100| < 1/100 ∧
    |cmean (dietSeries (filtered_df exampleDataset 2019 2021)) - 6103/100| < 1/100 := by
  refine ⟨?_, by decide, ?_, ?_⟩ <;>
    norm_num [abs_lt, cmean, co2Series, dietSeries, filtered_df, exampleDataset, List.filter]

/-- C5: for a series with at least 2 records the percentage-change mean is
the arithmetic mean of `(x[i] - x[i-1]) / x[i-1]` over the n-1 consecutive
pairs, and with fewer than 2 records it is undefined. -/
theorem pctChangeMean_formula (xs : List ℚ) :
    (2 ≤ xs.length → pctChangeMean xs =
      some (((List.range (xs.length - 1)).map
        (fun i => (xs.getD (i + 1) 0 - xs.getD i 0) / xs.getD i 0)).sum /
        ((xs.length - 1 : ℕ) : ℚ))) ∧
    (xs.length < 2 → pctChangeMean xs = none) := by
  constructor
  · intro h
    rw [pctChangeMean, if_neg (by omega), cmean, pctChanges_eq_map]
    congr 3
    simp
  · intro h
    exact if_pos h

/-- Witness for C5 at the series [1, 2, 4], whose percentage changes are
[1, 1] with mean 1. -/
theorem pctChangeMean_formula_witness :
    2 ≤ ([(1 : ℚ), 2, 4]).length ∧ pctChangeMean [(1 : ℚ), 2, 4] =
      some (((List.range (([(1 : ℚ), 2, 4]).length - 1)).map
        (fun i => (([(1 : ℚ), 2, 4]).getD (i + 1) 0 - ([(1 : ℚ), 2, 4]).getD i 0) /
          ([(1 : ℚ), 2, 4]).getD i 0)).sum / ((([(1 : ℚ), 2, 4]).length - 1 : ℕ) : ℚ)) :=
  ⟨by decide, (pctChangeMean_formula [(1 : ℚ), 2, 4]).1 (by decide)⟩

/-- C6: the Pearson correlation of line 78 is symmetric in its two series. -/
theorem pearson_symm (xs ys : List ℚ) : pearson xs ys = pearson ys xs := by
  unfold pearson
  split_ifs with h1 h2 h2
  · rfl
  · rw [min_comm] at h1; tauto
  · rw [min_comm] at h1; tauto
  · rw [dotc_comm (centered xs) (centered ys),
      mul_comm ((dotc (centered xs) (centered xs) : ℚ) : ℝ)]

/-- C7: filtering with the full range, from the minimum to the maximum of
the `year` column as the slider does, returns the dataset unchanged. -/
theorem filtered_df_full_range_eq (df : List IndicatorRecord) (lo hi : ℤ)
    (hmin : minYearCol df = (lo : ℤ)) (hmax : maxYearCol df = (hi : ℤ)) :
    filtered_df df lo hi = df := by
  rw [filtered_df, List.filter_eq_self]
  intro r hr
  have hy : r.year ∈ df.map (fun r => r.year) := List.mem_map_of_mem _ hr
  have h1 : lo ≤ r.year := List.minimum_le_of_mem hy hmin
  have h2 : r.year ≤ hi := List.le_maximum_of_mem hy hmax
  simp [h1, h2]

/-- Witness for C7 at the example dataset, whose year bounds are 2017 and
2023. -/
theorem filtered_df_full_range_eq_witness :
    minYearCol exampleDataset = ((2017 : ℤ) : WithTop ℤ) ∧
    maxYearCol exampleDataset = ((2023 : ℤ) : WithBot ℤ) ∧
    filtered_df exampleDataset 2017 2023 = exampleDataset :=
  ⟨by decide, by decide,
    filtered_df_full_range_eq exampleDataset 2017 2023 (by decide) (by decide)⟩

/-- C8 counterexample: the claim that the load fails whenever the source is
empty is false on the code.  An empty table loads successfully as an empty
dataframe, and a table whose rows lack the diet column also loads
successfully, because `SELECT *` validates nothing. -/
theorem load_data_counterexample :
    load_data (some ([] : List IndicatorRecord)) (fun r => r.year) = Except.ok [] ∧
    (load_data (some ([] : List IndicatorRecord)) (fun r => r.year)).isOk = true ∧
    load_data (some [(⟨2020, 1⟩ : PartialRow)]) (fun r => r.year) =
      Except.ok [(⟨2020, 1⟩ : PartialRow)] :=
  ⟨rfl, rfl, rfl⟩

/-- C8 amended: the load returns the table rows sorted ascending by the
year key and fails only when the table is unreachable (with the sqlite
no-such-table error rather than a dedicated DataSourceError); an empty or
column-deficient table loads successfully. -/
theorem load_data_amended {α : Type} (key : α → ℤ) (rows : List α) :
    load_data (some rows) key = Except.ok (sortByKey key rows) ∧
    (sortByKey key rows).Pairwise (fun a b => key a ≤ key b) ∧
    (load_data (none : Option (List α)) key).isOk = false :=
  ⟨rfl, sortByKey_sorted key rows, rfl⟩

/-- C9: for every pair of bounds, including out-of-range and inverted
pairs, the boolean-mask filter is total (it is a function, never an
exception), returns the subsequence of records whose year lies in the
closed range, and an inverted pair yields the empty view. -/
theorem filtered_df_total_subsequence (df : List IndicatorRecord) (lo hi : ℤ) :
    (filtered_df df lo hi).Sublist df ∧
    (∀ r, r ∈ filtered_df df lo hi ↔ r ∈ df ∧ lo ≤ r.year ∧ r.year ≤ hi) ∧
    (hi < lo → filtered_df df lo hi = []) := by
  refine ⟨List.filter_sublist df, fun r => ?_, fun hinv => ?_⟩
  · simp [filtered_df, List.mem_filter, and_assoc]
  · rw [filtered_df, List.filter_eq_nil_iff]
    intro r _
    simp only [decide_eq_true_eq]
    omega

/-- Witness for C9 at the inverted range (5, 3) on the example dataset. -/
theorem filtered_df_total_subsequence_witness : filtered_df exampleDataset 5 3 = [] :=
  (filtered_df_total_subsequence exampleDataset 5 3).2.2 (by decide)

/-- C10: whenever the Pearson correlation is defined it lies in [-1, 1],
and the dashboard label (Negative below 0, Positive otherwise) is
exhaustive on it. -/
theorem pearson_in_unit_interval (xs ys : List ℚ) (r : ℝ)
    (h : pearson xs ys = some r) :
    (-1 ≤ r ∧ r ≤ 1) ∧ (corrLabel r = "Negative" ∨ corrLabel r = "Positive") := by
  constructor
  · unfold pearson at h
    split_ifs at h with hg
    push_neg at hg
    obtain ⟨-, hp, hq⟩ := hg
    set p := dotc (centered xs) (centered xs) with hpdef
    set q := dotc (centered ys) (centered ys) with hqdef
    set d := dotc (centered xs) (centered ys) with hddef
    have hp0 : 0 < p := lt_of_le_of_ne (dotc_self_nonneg _) (Ne.symm hp)
    have hq0 : 0 < q := lt_of_le_of_ne (dotc_self_nonneg _) (Ne.symm hq)
    have hpq : (0 : ℝ) < (p : ℝ) * (q : ℝ) := by exact_mod_cast mul_pos hp0 hq0
    have hsq : 0 < Real.sqrt ((p : ℝ) * (q : ℝ)) := Real.sqrt_pos.mpr hpq
    have hd2 : ((d : ℝ)) ^ 2 ≤ (p : ℝ) * (q : ℝ) := by
      exact_mod_cast dotc_sq_le (centered xs) (centered ys)
    have habs : |(d : ℝ)| ≤ Real.sqrt ((p : ℝ) * (q : ℝ)) := by
      rw [← Real.sqrt_sq_eq_abs]
      exact Real.sqrt_le_sqrt hd2
    have hr : r = (d : ℝ) / Real.sqrt ((p : ℝ) * (q : ℝ)) := by
      injection h with h
      exact h.symm
    have habs1 : |r| ≤ 1 := by
      rw [hr, abs_div, abs_of_pos hsq, div_le_one hsq]
      exact habs
    exact abs_le.mp habs1
  · unfold corrLabel
    split_ifs
    · exact Or.inl rfl
    · exact Or.inr rfl

/-- Witness for C10 at the synthetic linear data, whose correlation is 1. -/
theorem pearson_in_unit_interval_witness :
    pearson linX linY = some 1 ∧ ((-1 ≤ (1 : ℝ) ∧ (1 : ℝ) ≤ 1) ∧
      (corrLabel 1 = "Negative" ∨ corrLabel 1 = "Positive")) :=
  ⟨pearson_linX_linY, pearson_in_unit_interval linX linY 1 pearson_linX_linY⟩
